import Mathlib

/-!
Shallow embedding of `tools/generate_card_svgs.py`: a one-shot generator of
SVG playing-card and poker-chip assets.  Constants, lookup tables and the
three template functions are transcribed byte-for-byte from the Python
source; each f-string becomes the concatenation (`strConcat`) of its
literal fragments and interpolated values, in source order, so that the
fragments stay individually addressable in proofs.  The driver `main` is
modelled by the list of (path, content) file writes it performs, an
overwrite-semantics filesystem for the idempotence claim, and a
directory-set model of `Path.mkdir(parents=True, exist_ok=True)`.
-/

/-- Card width (source line 12). -/
def CARD_WIDTH : Nat := 140

/-- Card height (source line 13). -/
def CARD_HEIGHT : Nat := 190

/-- Corner radius (source line 14). -/
def CORNER_RADIUS : Nat := 10

/-- Color constant `RED` (source line 17). -/
def RED : String := "#CC1111"

/-- Color constant `BLACK` (source line 18). -/
def BLACK : String := "#111111"

/-- Color constant `WHITE` (source line 19). -/
def WHITE : String := "#FFFFFF"

/-- Color constant (source line 20). -/
def CARD_BACK_COLOR : String := "#2E4A7D"

/-- Color constant (source line 21). -/
def CARD_BACK_PATTERN : String := "#3D5A8D"

/-- The `SUITS` dict (source lines 24-29), in insertion order:
key ↦ (display name, color, unicode glyph). -/
def SUITS : List (String × (String × String × String)) :=
  [("h", ("Hearts", RED, "♥")),
   ("d", ("Diamonds", RED, "♦")),
   ("c", ("Clubs", BLACK, "♣")),
   ("s", ("Spades", BLACK, "♠"))]

/-- Python `SUITS[suit]`: dict lookup; `none` models a `KeyError`. -/
def SUITS_get (suit : String) : Option (String × String × String) :=
  (SUITS.find? (fun kv => kv.1 == suit)).map (fun kv => kv.2)

/-- The `RANKS` list (source line 31). -/
def RANKS : List String :=
  ["2", "3", "4", "5", "6", "7", "8", "9", "T", "J", "Q", "K", "A"]

/-- The `RANK_DISPLAY` dict (source lines 32-36), in insertion order. -/
def RANK_DISPLAY : List (String × String) :=
  [("T", "10"), ("J", "J"), ("Q", "Q"), ("K", "K"), ("A", "A"),
   ("2", "2"), ("3", "3"), ("4", "4"), ("5", "5"), ("6", "6"),
   ("7", "7"), ("8", "8"), ("9", "9")]

/-- Python `RANK_DISPLAY[rank]`: dict lookup; `none` models a `KeyError`. -/
def RANK_DISPLAY_get (rank : String) : Option String :=
  (RANK_DISPLAY.find? (fun kv => kv.1 == rank)).map (fun kv => kv.2)

/-- Concatenation of a list of string fragments (an f-string's pieces). -/
def strConcat (l : List String) : String := l.foldr (fun a b => a ++ b) ""

/-- The f-string of `generate_card_svg` (source lines 44-71) as its list of
fragments: literal pieces and interpolated values in source order, with
every newline and trailing space of the Python triple-quoted template. -/
def card_svg_parts (color rank_display symbol : String) : List String :=
  ["<?xml version=\"1.0\" encoding=\"UTF-8\"?>\n",                        -- 0
   "<svg width=\"", toString CARD_WIDTH,                                  -- 1, 2
   "\" height=\"", toString CARD_HEIGHT, "\"",                            -- 3, 4, 5
   " xmlns=\"http://www.w3.org/2000/svg\">\n  <!-- Card background -->\n  <rect x=\"1\" y=\"1\" width=\"", -- 6
   toString (CARD_WIDTH - 2),                                             -- 7
   "\" height=\"", toString (CARD_HEIGHT - 2),                            -- 8, 9
   "\" \n        rx=\"", toString CORNER_RADIUS,                          -- 10, 11
   "\" ry=\"", toString CORNER_RADIUS,                                    -- 12, 13
   "\" \n        fill=\"", WHITE,                                         -- 14, 15
   "\" stroke=\"#CCCCCC\" stroke-width=\"1\"/>\n  \n  <!-- Top-left rank -->\n  <text x=\"8\" y=\"28\" font-family=\"Arial, sans-serif\" font-size=\"22\" \n        font-weight=\"bold\" ", -- 16
   "fill=\"", color, "\">", rank_display,                                 -- 17, 18, 19, 20
   "</text>\n  \n  <!-- Top-left suit -->\n  <text x=\"10\" y=\"50\" font-family=\"Arial, sans-serif\" font-size=\"20\" \n        ", -- 21
   "fill=\"", color, "\">", symbol,                                       -- 22, 23, 24, 25
   "</text>\n  \n  <!-- Center suit (large) -->\n  <text x=\"",           -- 26
   toString (CARD_WIDTH / 2),                                             -- 27
   "\" y=\"", toString (CARD_HEIGHT / 2 + 20),                            -- 28, 29
   "\" \n        font-family=\"Arial, sans-serif\" font-size=\"60\" \n        text-anchor=\"middle\" ", -- 30
   "fill=\"", color, "\">", symbol,                                       -- 31, 32, 33, 34
   "</text>\n  \n  <!-- Bottom-right rank (rotated) -->\n  <g transform=\"rotate(180 ", -- 35
   toString (CARD_WIDTH / 2), " ", toString (CARD_HEIGHT / 2),            -- 36, 37, 38
   ")\">\n    <text x=\"8\" y=\"28\" font-family=\"Arial, sans-serif\" font-size=\"22\" \n          font-weight=\"bold\" ", -- 39
   "fill=\"", color, "\">", rank_display,                                 -- 40, 41, 42, 43
   "</text>\n    <text x=\"10\" y=\"50\" font-family=\"Arial, sans-serif\" font-size=\"20\" \n          ", -- 44
   "fill=\"", color, "\">", symbol,                                       -- 45, 46, 47, 48
   "</text>\n  </g>\n</svg>"]                                             -- 49

/-- The document built by `generate_card_svg`'s template, as a function of
the three interpolated values. -/
def card_svg_template (color rank_display symbol : String) : String :=
  strConcat (card_svg_parts color rank_display symbol)

/-- Python `generate_card_svg(rank, suit)` (source lines 39-72).  The two dict
subscripts come first; a missing key is a `KeyError`, modelled as `none`. -/
def generate_card_svg (rank suit : String) : Option String :=
  match SUITS_get suit, RANK_DISPLAY_get rank with
  | some (_suit_name, color, symbol), some rank_display =>
      some (card_svg_template color rank_display symbol)
  | _, _ => none

/-- Local `pattern_size` of `generate_card_back_svg` (source line 77). -/
def back_pattern_size : Nat := 10

/-- Python `generate_card_back_svg()` (source lines 75-114): the fixed card-back
document, transcribed byte-for-byte from the f-string template. -/
def generate_card_back_svg : String :=
  "<?xml version=\"1.0\" encoding=\"UTF-8\"?>\n<svg width=\"" ++
  toString CARD_WIDTH ++ "\" height=\"" ++ toString CARD_HEIGHT ++
  "\" xmlns=\"http://www.w3.org/2000/svg\">\n  <defs>\n    <pattern id=\"checker\" width=\"" ++
  toString (back_pattern_size * 2) ++ "\" height=\"" ++
  toString (back_pattern_size * 2) ++
  "\" patternUnits=\"userSpaceOnUse\">\n      <rect width=\"" ++
  toString back_pattern_size ++ "\" height=\"" ++ toString back_pattern_size ++
  "\" fill=\"" ++ CARD_BACK_COLOR ++ "\"/>\n      <rect x=\"" ++
  toString back_pattern_size ++ "\" width=\"" ++ toString back_pattern_size ++
  "\" height=\"" ++ toString back_pattern_size ++ "\" fill=\"" ++
  CARD_BACK_PATTERN ++ "\"/>\n      <rect y=\"" ++
  toString back_pattern_size ++ "\" width=\"" ++ toString back_pattern_size ++
  "\" height=\"" ++ toString back_pattern_size ++ "\" fill=\"" ++
  CARD_BACK_PATTERN ++ "\"/>\n      <rect x=\"" ++
  toString back_pattern_size ++ "\" y=\"" ++ toString back_pattern_size ++
  "\" width=\"" ++ toString back_pattern_size ++ "\" height=\"" ++
  toString back_pattern_size ++ "\" fill=\"" ++ CARD_BACK_COLOR ++
  "\"/>\n    </pattern>\n  </defs>\n  \n  <!-- Card background with pattern -->\n  <rect x=\"1\" y=\"1\" width=\"" ++
  toString (CARD_WIDTH - 2) ++ "\" height=\"" ++ toString (CARD_HEIGHT - 2) ++
  "\" \n        rx=\"" ++ toString CORNER_RADIUS ++ "\" ry=\"" ++
  toString CORNER_RADIUS ++
  "\" \n        fill=\"url(#checker)\"/>\n  \n  <!-- Border -->\n  <rect x=\"1\" y=\"1\" width=\"" ++
  toString (CARD_WIDTH - 2) ++ "\" height=\"" ++ toString (CARD_HEIGHT - 2) ++
  "\" \n        rx=\"" ++ toString CORNER_RADIUS ++ "\" ry=\"" ++
  toString CORNER_RADIUS ++ "\" \n        fill=\"none\" stroke=\"" ++ WHITE ++
  "\" stroke-width=\"3\"/>\n  \n  <!-- Inner border -->\n  <rect x=\"8\" y=\"8\" width=\"" ++
  toString (CARD_WIDTH - 16) ++ "\" height=\"" ++ toString (CARD_HEIGHT - 16) ++
  "\" \n        rx=\"5\" ry=\"5\" \n        fill=\"none\" stroke=\"" ++ WHITE ++
  "\" stroke-width=\"1\" opacity=\"0.5\"/>\n  \n  <!-- Center decoration -->\n  <circle cx=\"" ++
  toString (CARD_WIDTH / 2) ++ "\" cy=\"" ++ toString (CARD_HEIGHT / 2) ++
  "\" r=\"25\" \n          fill=\"" ++ WHITE ++ "\"/>\n  <circle cx=\"" ++
  toString (CARD_WIDTH / 2) ++ "\" cy=\"" ++ toString (CARD_HEIGHT / 2) ++
  "\" r=\"20\" \n          fill=\"" ++ CARD_BACK_COLOR ++
  "\"/>\n  <text x=\"" ++ toString (CARD_WIDTH / 2) ++ "\" y=\"" ++
  toString (CARD_HEIGHT / 2 + 8) ++
  "\" \n        font-family=\"Arial, sans-serif\" font-size=\"24\" font-weight=\"bold\"\n        text-anchor=\"middle\" fill=\"" ++
  WHITE ++ "\">♠</text>\n</svg>"

/-- Local `size` of `generate_chip_svg` (source line 119). -/
def chip_size : Nat := 80

/-- Local `cx` of `generate_chip_svg` (source line 120). -/
def chip_cx : Nat := chip_size / 2

/-- Local `cy` of `generate_chip_svg` (source line 120). -/
def chip_cy : Nat := chip_size / 2

/-- Local `radius` of `generate_chip_svg` (source line 121). -/
def chip_radius : Nat := chip_size / 2 - 2

/-- The f-string of `generate_chip_svg` (source lines 123-150) as its list
of fragments, in source order; `toString value` reproduces Python's
rendering of the (possibly negative) integer. -/
def chip_svg_parts (value : Int) (color text_color : String) : List String :=
  ["<?xml version=\"1.0\" encoding=\"UTF-8\"?>\n",                        -- 0
   "<svg width=\"", toString chip_size,                                   -- 1, 2
   "\" height=\"", toString chip_size, "\"",                              -- 3, 4, 5
   " xmlns=\"http://www.w3.org/2000/svg\">\n  <!-- Main chip -->\n  <circle cx=\"", -- 6
   toString chip_cx, "\" cy=\"", toString chip_cy,                        -- 7, 8, 9
   "\" r=\"", toString chip_radius, "\" fill=\"", color,                  -- 10, 11, 12, 13
   "\"/>\n  \n  <!-- Edge ring -->\n  <circle cx=\"",                     -- 14
   toString chip_cx, "\" cy=\"", toString chip_cy,                        -- 15, 16, 17
   "\" r=\"", toString chip_radius,                                       -- 18, 19
   "\" fill=\"none\" \n          stroke=\"#000000\" stroke-width=\"5\" opacity=\"0.3\"/>\n  <circle cx=\"", -- 20
   toString chip_cx, "\" cy=\"", toString chip_cy,                        -- 21, 22, 23
   "\" r=\"", toString (chip_radius - 5),                                 -- 24, 25
   "\" fill=\"none\" \n          stroke=\"", WHITE,                       -- 26, 27
   "\" stroke-width=\"2\" opacity=\"0.5\"/>\n  \n  <!-- Edge stripes -->\n  <g stroke=\"", -- 28
   WHITE,                                                                 -- 29
   "\" stroke-width=\"3\" opacity=\"0.7\">\n    <line x1=\"",             -- 30
   toString chip_cx, "\" y1=\"2\" x2=\"", toString chip_cx,               -- 31, 32, 33
   "\" y2=\"12\"/>\n    <line x1=\"", toString chip_cx,                   -- 34, 35
   "\" y1=\"", toString (chip_size - 2),                                  -- 36, 37
   "\" x2=\"", toString chip_cx,                                          -- 38, 39
   "\" y2=\"", toString (chip_size - 12),                                 -- 40, 41
   "\"/>\n    <line x1=\"2\" y1=\"", toString chip_cy,                    -- 42, 43
   "\" x2=\"12\" y2=\"", toString chip_cy,                                -- 44, 45
   "\"/>\n    <line x1=\"", toString (chip_size - 2),                     -- 46, 47
   "\" y1=\"", toString chip_cy,                                          -- 48, 49
   "\" x2=\"", toString (chip_size - 12),                                 -- 50, 51
   "\" y2=\"", toString chip_cy,                                          -- 52, 53
   "\"/>\n  </g>\n  \n  <!-- Center circle -->\n  <circle cx=\"",         -- 54
   toString chip_cx, "\" cy=\"", toString chip_cy,                        -- 55, 56, 57
   "\" r=\"18\" fill=\"", WHITE,                                          -- 58, 59
   "\"/>\n  <circle cx=\"", toString chip_cx,                             -- 60, 61
   "\" cy=\"", toString chip_cy,                                          -- 62, 63
   "\" r=\"15\" fill=\"", color,                                          -- 64, 65
   "\"/>\n  \n  <!-- Value text -->\n  <text x=\"",                       -- 66
   toString chip_cx, "\" y=\"", toString (chip_cy + 6),                   -- 67, 68, 69
   "\" font-family=\"Arial, sans-serif\" \n        font-size=\"14\" font-weight=\"bold\" text-anchor=\"middle\" \n        ", -- 70
   "fill=\"", text_color, "\">", toString value,                          -- 71, 72, 73, 74
   "</text>", "\n</svg>"]                                                 -- 75, 76

/-- Python `generate_chip_svg(value, color, text_color)` (source lines 117-151). -/
def generate_chip_svg (value : Int) (color text_color : String) : String :=
  strConcat (chip_svg_parts value color text_color)

/-- A call `generate_chip_svg(value, color)` that omits the optional
`text_color` argument, whose Python default is `WHITE` (source line 117). -/
def generate_chip_svg_default (value : Int) (color : String) : String :=
  generate_chip_svg value color WHITE

/-- The `chips` table of `main` (source lines 183-190). -/
def chips : List (Int × String × String) :=
  [(1, "#FFFFFF", BLACK),
   (5, "#CC1111", WHITE),
   (25, "#118811", WHITE),
   (100, "#111111", WHITE),
   (500, "#880088", WHITE),
   (1000, "#FFD700", BLACK)]

/-- The sequence of file writes performed by one run of `main` (source
lines 154-199), as (path, content) pairs relative to the output root
`../client/Assets/Resources`; `none` models an uncaught `KeyError`
aborting the run.  The iteration order mirrors the source: suits outer,
ranks inner, then the card back, then the chips. -/
def main_writes : Option (List (String × String)) := do
  let cardLists ← (SUITS.map (fun kv => kv.1)).mapM (fun suit =>
    RANKS.mapM (fun rank =>
      (generate_card_svg rank suit).map
        (fun svg => ("Cards/" ++ rank ++ suit ++ ".svg", svg))))
  pure (cardLists.flatten ++
    [("Cards/card_back.svg", generate_card_back_svg)] ++
    chips.map (fun vct =>
      ("Chips/chip_" ++ toString vct.1 ++ ".svg",
        generate_chip_svg vct.1 vct.2.1 vct.2.2)))

/-- The final summary count `total` printed by `main` (source line 201). -/
def main_total : Nat := SUITS.length * RANKS.length + 1 + chips.length

/-- Executable substring occurrence check on character lists. -/
def hasSubstr (pat : List Char) : List Char → Bool
  | [] => pat.isEmpty
  | c :: cs => pat.isPrefixOf (c :: cs) || hasSubstr pat cs

/-- Substring containment: `pat` occurs contiguously inside `s`. -/
def ContainsStr (s pat : String) : Prop := pat.data <:+: s.data

theorem hasSubstr_iff (pat s : List Char) : hasSubstr pat s = true ↔ pat <:+: s := by
  induction s with
  | nil =>
      simp [hasSubstr, List.isEmpty_iff]
  | cons c cs ih =>
      simp [hasSubstr, List.isPrefixOf_iff_prefix, ih, List.infix_cons_iff]

instance (s pat : String) : Decidable (ContainsStr s pat) :=
  decidable_of_iff (hasSubstr pat.data s.data = true) (hasSubstr_iff pat.data s.data)

theorem strConcat_append (xs ys : List String) :
    strConcat (xs ++ ys) = strConcat xs ++ strConcat ys := by
  induction xs with
  | nil =>
      show strConcat ys = "".append (strConcat ys)
      cases strConcat ys
      rfl
  | cons a xs ih =>
      show a ++ strConcat (xs ++ ys) = (a ++ strConcat xs) ++ strConcat ys
      rw [ih, String.append_assoc]

theorem containsStr_strConcat (xs seg zs : List String) :
    ContainsStr (strConcat (xs ++ seg ++ zs)) (strConcat seg) := by
  rw [strConcat_append, strConcat_append]
  exact ⟨(strConcat xs).data, (strConcat zs).data, by
    simp [String.data_append, List.append_assoc]⟩

theorem containsStr_parts (ps seg : List String) (i j : Nat) (pat : String)
    (hsplit : ps = ps.take i ++ seg ++ ps.drop j)
    (hpat : pat = strConcat seg) :
    ContainsStr (strConcat ps) pat := by
  rw [hpat]
  conv in strConcat ps => rw [hsplit]
  exact containsStr_strConcat _ _ _

theorem card_template_dims (c d sym : String) :
    ContainsStr (card_svg_template c d sym) "<svg width=\"140\" height=\"190\"" :=
  containsStr_parts _
    ["<svg width=\"", toString CARD_WIDTH, "\" height=\"", toString CARD_HEIGHT, "\""]
    1 6 _ (by rfl) (by decide)

theorem card_template_rank_colored (c d sym : String) :
    ContainsStr (card_svg_template c d sym) ("fill=\"" ++ c ++ "\">" ++ d) :=
  containsStr_parts _ ["fill=\"", c, "\">", d] 17 21 _ (by rfl)
    (by simp [strConcat, String.append_assoc])

theorem card_template_symbol_colored (c d sym : String) :
    ContainsStr (card_svg_template c d sym) ("fill=\"" ++ c ++ "\">" ++ sym) :=
  containsStr_parts _ ["fill=\"", c, "\">", sym] 22 26 _ (by rfl)
    (by simp [strConcat, String.append_assoc])

theorem card_template_has_rank (c d sym : String) :
    ContainsStr (card_svg_template c d sym) d :=
  containsStr_parts _ [d] 20 21 _ (by rfl) (by simp [strConcat])

theorem card_template_has_symbol (c d sym : String) :
    ContainsStr (card_svg_template c d sym) sym :=
  containsStr_parts _ [sym] 25 26 _ (by rfl) (by simp [strConcat])

theorem SUITS_get_of_mem (s : String) (hs : s ∈ SUITS.map (fun kv => kv.1)) :
    ∃ info, SUITS_get s = some info := by
  simp only [SUITS, List.map_cons, List.map_nil, List.mem_cons,
    List.not_mem_nil, or_false] at hs
  rcases hs with rfl | rfl | rfl | rfl <;> exact ⟨_, rfl⟩

theorem RANK_DISPLAY_get_of_mem (r : String) (hr : r ∈ RANKS) :
    ∃ disp, RANK_DISPLAY_get r = some disp := by
  simp only [RANKS, List.mem_cons, List.not_mem_nil, or_false] at hr
  rcases hr with rfl | rfl | rfl | rfl | rfl | rfl | rfl | rfl | rfl | rfl |
    rfl | rfl | rfl <;> exact ⟨_, rfl⟩

/-- The 59 output paths claim C1 promises, built from the claim's own rank,
suit and chip-value sets (rank-major order, unlike the driver's suit-major
iteration order). -/
def c1_expected_paths : List String :=
  ((["2", "3", "4", "5", "6", "7", "8", "9", "T", "J", "Q", "K", "A"].map
    (fun r => ["h", "d", "c", "s"].map
      (fun s => "Cards/" ++ r ++ s ++ ".svg"))).flatten)
  ++ ["Cards/card_back.svg"]
  ++ ([1, 5, 25, 100, 500, 1000].map (fun v : Nat =>
    "Chips/chip_" ++ toString v ++ ".svg"))

/-- C1: a single run of `main` performs exactly 59 distinct file writes —
one `Cards/<rank><suit>.svg` per rank-suit pair, `Cards/card_back.svg`,
and one `Chips/chip_<value>.svg` per chip value — 53 of them under `Cards`
and 6 under `Chips`, and the final summary count it prints is that same
total, 59. -/
theorem c1_write_set : ∃ ws, main_writes = some ws ∧
    List.Perm (ws.map Prod.fst) c1_expected_paths ∧
    (ws.map Prod.fst).Nodup ∧
    ((ws.map Prod.fst).filter
      (fun p => "Cards/".data.isPrefixOf p.data)).length = 53 ∧
    ((ws.map Prod.fst).filter
      (fun p => "Chips/".data.isPrefixOf p.data)).length = 6 ∧
    ws.length = 59 ∧
    main_total = 59 := by
  refine ⟨_, rfl, by decide, by decide, by decide, by decide, by decide, by decide⟩

/-- A filesystem of file contents, for the overwrite semantics of
`open(filepath, 'w')` followed by `f.write` (source lines 171-172). -/
def FS : Type := String → Option String

/-- Apply a list of file writes in order; each write replaces the content
stored at its path (Python's `'w'` mode truncates and overwrites). -/
def applyWrites : List (String × String) → FS → FS
  | [], fs => fs
  | w :: ws, fs => applyWrites ws (fun q => if q = w.1 then some w.2 else fs q)

theorem applyWrites_find (ws : List (String × String)) :
    ∀ (fs : FS) (q : String),
      applyWrites ws fs q =
        match ws.reverse.find? (fun w => w.1 == q) with
        | some w => some w.2
        | none => fs q := by
  induction ws with
  | nil => intro fs q; rfl
  | cons w ws ih =>
      intro fs q
      show applyWrites ws _ q = _
      rw [ih, List.reverse_cons, List.find?_append]
      cases h : ws.reverse.find? (fun w => w.1 == q) with
      | some v => simp [h]
      | none =>
          by_cases hq : w.1 = q
          · subst hq
            simp [h, List.find?]
          · have hq1 : (w.1 == q) = false := by simp [hq]
            simp [h, List.find?, hq1, Ne.symm hq]

theorem applyWrites_idem (ws : List (String × String)) (fs : FS) :
    applyWrites ws (applyWrites ws fs) = applyWrites ws fs := by
  funext q
  rw [applyWrites_find, applyWrites_find]
  cases h : ws.reverse.find? (fun w => w.1 == q) with
  | some v => simp [h]
  | none => simp [h, applyWrites_find]

/-- C3: the run succeeds, is deterministic (the write list is a fixed
value), and re-running it over the filesystem left by the first run
reproduces exactly the same contents at every path: a second application
of the same writes changes nothing. -/
theorem c3_rerun_idempotent : ∃ ws, main_writes = some ws ∧
    ∀ fs : FS, applyWrites ws (applyWrites ws fs) = applyWrites ws fs :=
  ⟨_, rfl, fun fs => applyWrites_idem _ fs⟩

set_option maxRecDepth 100000 in
/-- C4 counterexample: the claim "no suit glyph and no rank display string
of the tables occurs in the card back" is false — "♠" is the glyph of suit
's' in the `SUITS` table and occurs in the card back (its center emblem),
and "10" is the display string of rank 'T' and also occurs (as part of the
back's fixed geometry attributes). -/
theorem c4_counterexample :
    SUITS_get "s" = some ("Spades", "#111111", "♠") ∧
    ContainsStr generate_card_back_svg "♠" ∧
    RANK_DISPLAY_get "T" = some "10" ∧
    ContainsStr generate_card_back_svg "10" := by
  exact ⟨rfl, by decide, rfl, by decide⟩

set_option maxRecDepth 100000 in
/-- C4 amended: the card back contains no suit glyph other than "♠" (which
it does contain, as its center emblem) and none of the rank display
strings "6", "J", "Q", "K"; the remaining display strings do occur, but
only as substrings of its fixed markup (dimensions, coordinates, color
codes, font names). -/
theorem c4_card_back_marks :
    SUITS.map (fun kv => kv.2.2.2) = ["♥", "♦", "♣", "♠"] ∧
    RANK_DISPLAY.map (fun kv => kv.2) =
      ["10", "J", "Q", "K", "A", "2", "3", "4", "5", "6", "7", "8", "9"] ∧
    (∀ g ∈ ["♥", "♦", "♣"], ¬ ContainsStr generate_card_back_svg g) ∧
    ContainsStr generate_card_back_svg "♠" ∧
    (∀ d ∈ ["6", "J", "Q", "K"], ¬ ContainsStr generate_card_back_svg d) ∧
    (∀ d ∈ ["10", "A", "2", "3", "4", "5", "7", "8", "9"],
      ContainsStr generate_card_back_svg d) := by
  exact ⟨rfl, rfl, by decide, by decide, by decide, by decide⟩

/-- Witness: the amended C4 applied at "♥" (absent) and "10" (present). -/
theorem c4_card_back_marks_witness :
    ¬ ContainsStr generate_card_back_svg "♥" ∧
    ContainsStr generate_card_back_svg "10" :=
  ⟨c4_card_back_marks.2.2.1 "♥" (by decide),
   c4_card_back_marks.2.2.2.2.2 "10" (by decide)⟩

set_option maxRecDepth 100000 in
/-- C5: the 1000 chip rendered with gold fill and black text is an 80×80
document containing the literal text "1000" and the fill color `#FFD700`,
and the driver's chip table has exactly this entry for value 1000. -/
theorem c5_chip_1000_gold :
    ContainsStr (generate_chip_svg 1000 "#FFD700" BLACK)
      "<svg width=\"80\" height=\"80\"" ∧
    ContainsStr (generate_chip_svg 1000 "#FFD700" BLACK) "1000" ∧
    ContainsStr (generate_chip_svg 1000 "#FFD700" BLACK) "fill=\"#FFD700\"" ∧
    (1000, "#FFD700", BLACK) ∈ chips ∧
    chips.filter (fun vct => vct.1 == 1000) = [(1000, "#FFD700", BLACK)] := by
  exact ⟨by decide, by decide, by decide, by decide, by decide⟩

/-- C2: for every rank in the 13-element rank set and every suit in the
4-element suit set, `generate_card_svg` returns a document that declares
width 140 and height 190 and contains the rank's display string and the
suit's glyph rendered in the suit's designated color; in particular the
('T','s') output contains "10" and "♠" colored `#111111`, and the ('A','h')
output contains "A" and "♥" colored `#CC1111`. -/
theorem c2_card_faces :
    (∀ r ∈ RANKS, ∀ s ∈ SUITS.map (fun kv => kv.1),
      ∃ suit_name color symbol disp,
        SUITS_get s = some (suit_name, color, symbol) ∧
        RANK_DISPLAY_get r = some disp ∧
        generate_card_svg r s = some (card_svg_template color disp symbol) ∧
        ContainsStr (card_svg_template color disp symbol)
          "<svg width=\"140\" height=\"190\"" ∧
        ContainsStr (card_svg_template color disp symbol)
          ("fill=\"" ++ color ++ "\">" ++ disp) ∧
        ContainsStr (card_svg_template color disp symbol)
          ("fill=\"" ++ color ++ "\">" ++ symbol)) ∧
    (∃ doc, generate_card_svg "T" "s" = some doc ∧
      ContainsStr doc "10" ∧ ContainsStr doc "♠" ∧
      ContainsStr doc "fill=\"#111111\">10" ∧
      ContainsStr doc "fill=\"#111111\">♠") ∧
    (∃ doc, generate_card_svg "A" "h" = some doc ∧
      ContainsStr doc "A" ∧ ContainsStr doc "♥" ∧
      ContainsStr doc "fill=\"#CC1111\">A" ∧
      ContainsStr doc "fill=\"#CC1111\">♥") := by
  refine ⟨?_, ?_, ?_⟩
  · intro r hr s hs
    obtain ⟨⟨suit_name, color, symbol⟩, hinfo⟩ := SUITS_get_of_mem s hs
    obtain ⟨disp, hdisp⟩ := RANK_DISPLAY_get_of_mem r hr
    refine ⟨suit_name, color, symbol, disp, hinfo, hdisp, ?_,
      card_template_dims color disp symbol,
      card_template_rank_colored color disp symbol,
      card_template_symbol_colored color disp symbol⟩
    unfold generate_card_svg
    rw [hinfo, hdisp]
  · exact ⟨_, rfl,
      card_template_has_rank "#111111" "10" "♠",
      card_template_has_symbol "#111111" "10" "♠",
      card_template_rank_colored "#111111" "10" "♠",
      card_template_symbol_colored "#111111" "10" "♠"⟩
  · exact ⟨_, rfl,
      card_template_has_rank "#CC1111" "A" "♥",
      card_template_has_symbol "#CC1111" "A" "♥",
      card_template_rank_colored "#CC1111" "A" "♥",
      card_template_symbol_colored "#CC1111" "A" "♥"⟩

/-- Witness: the universal part of C2 applied at the concrete pair
('2', 'h'), memberships discharged by `decide`. -/
theorem c2_card_faces_witness :
    ∃ suit_name color symbol disp,
      SUITS_get "h" = some (suit_name, color, symbol) ∧
      RANK_DISPLAY_get "2" = some disp ∧
      generate_card_svg "2" "h" = some (card_svg_template color disp symbol) ∧
      ContainsStr (card_svg_template color disp symbol)
        "<svg width=\"140\" height=\"190\"" ∧
      ContainsStr (card_svg_template color disp symbol)
        ("fill=\"" ++ color ++ "\">" ++ disp) ∧
      ContainsStr (card_svg_template color disp symbol)
        ("fill=\"" ++ color ++ "\">" ++ symbol) :=
  c2_card_faces.1 "2" (by decide) "h" (by decide)

/-- A set of existing directories, each identified by its path as a list
of segments (relative to the script directory). -/
abbrev DirState : Type := List (List String)

/-- Every ancestor of a path including the path itself, shortest first. -/
def dirPrefixes (path : List String) : List (List String) :=
  (List.range path.length).map (fun i => path.take (i + 1))

/-- Python `Path.mkdir(parents=True, exist_ok=True)` (source lines 160-161): it
creates every missing ancestor of `path` and `path` itself, and is a no-op
on directories that already exist. -/
def mkdir_parents (fs : DirState) (path : List String) : DirState :=
  fs ++ (dirPrefixes path).filter (fun d => ! fs.contains d)

/-- The `cards_dir` of `main` (source line 157), relative to the script
directory. -/
def cards_dir : List String := ["..", "client", "Assets", "Resources", "Cards"]

/-- The `chips_dir` of `main` (source line 158). -/
def chips_dir : List String := ["..", "client", "Assets", "Resources", "Chips"]

/-- The two directory-creation calls of `main` (source lines 160-161). -/
def main_mkdirs (fs : DirState) : DirState :=
  mkdir_parents (mkdir_parents fs cards_dir) chips_dir

theorem mem_mkdir_parents_left (fs : DirState) (p d : List String)
    (h : d ∈ fs) : d ∈ mkdir_parents fs p :=
  List.mem_append_left _ h

theorem mem_mkdir_parents_self (fs : DirState) (p d : List String)
    (h : d ∈ dirPrefixes p) : d ∈ mkdir_parents fs p := by
  by_cases hc : fs.contains d = true
  · exact List.mem_append_left _
      (List.elem_iff.mp (by simpa [List.contains] using hc))
  · exact List.mem_append_right _ (List.mem_filter.mpr ⟨h, by simpa using hc⟩)

theorem mkdir_parents_noop (fs : DirState) (p : List String)
    (h : ∀ d ∈ dirPrefixes p, d ∈ fs) : mkdir_parents fs p = fs := by
  unfold mkdir_parents
  rw [List.filter_eq_nil_iff.mpr (fun d hd => by
    simp [List.contains, List.elem_iff, h d hd]), List.append_nil]

/-- C6: when the output directories (or any of their ancestors) are
missing, the driver's two `mkdir(parents=True, exist_ok=True)` calls create
the full tree over any starting state; when every directory of the tree
already exists they change nothing; and the run then completes, producing
its 59 writes. -/
theorem c6_mkdirs :
    (∀ fs : DirState, ∀ d,
      (d ∈ dirPrefixes cards_dir ∨ d ∈ dirPrefixes chips_dir) →
        d ∈ main_mkdirs fs) ∧
    (∀ fs : DirState,
      (∀ d, (d ∈ dirPrefixes cards_dir ∨ d ∈ dirPrefixes chips_dir) → d ∈ fs) →
        main_mkdirs fs = fs) ∧
    main_writes.map (fun ws => ws.length) = some 59 := by
  refine ⟨?_, ?_, by decide⟩
  · intro fs d h
    rcases h with h | h
    · exact mem_mkdir_parents_left _ _ _ (mem_mkdir_parents_self _ _ _ h)
    · exact mem_mkdir_parents_self _ _ _ h
  · intro fs h
    unfold main_mkdirs
    rw [mkdir_parents_noop fs cards_dir (fun d hd => h d (Or.inl hd)),
      mkdir_parents_noop fs chips_dir (fun d hd => h d (Or.inr hd))]

/-- Witness: C6 applied to the empty directory state (the `Cards`
directory ends up existing) and to the fully-populated state (nothing
changes). -/
theorem c6_mkdirs_witness :
    cards_dir ∈ main_mkdirs [] ∧
    main_mkdirs (dirPrefixes cards_dir ++ dirPrefixes chips_dir) =
      dirPrefixes cards_dir ++ dirPrefixes chips_dir :=
  ⟨c6_mkdirs.1 [] cards_dir (Or.inl (by decide)),
   c6_mkdirs.2.1 _ (fun d hd => List.mem_append.mpr hd)⟩

theorem isSome_map_opt {α β : Type} (f : α → β) (o : Option α) :
    (Option.map f o).isSome = o.isSome := by
  cases o <;> rfl

theorem SUITS_get_isSome_iff (s : String) :
    (SUITS_get s).isSome = true ↔ s ∈ SUITS.map (fun kv => kv.1) := by
  rw [SUITS_get, isSome_map_opt, List.find?_isSome]
  constructor
  · rintro ⟨kv, hkv, hbeq⟩
    exact List.mem_map.mpr ⟨kv, hkv, by simpa using hbeq⟩
  · intro hm
    obtain ⟨kv, hkv, rfl⟩ := List.mem_map.mp hm
    exact ⟨kv, hkv, by simp⟩

theorem RANK_DISPLAY_get_isSome_iff (r : String) :
    (RANK_DISPLAY_get r).isSome = true ↔ r ∈ RANKS := by
  have h1 : (RANK_DISPLAY_get r).isSome = true ↔
      r ∈ RANK_DISPLAY.map (fun kv => kv.1) := by
    rw [RANK_DISPLAY_get, isSome_map_opt, List.find?_isSome]
    constructor
    · rintro ⟨kv, hkv, hbeq⟩
      exact List.mem_map.mpr ⟨kv, hkv, by simpa using hbeq⟩
    · intro hm
      obtain ⟨kv, hkv, rfl⟩ := List.mem_map.mp hm
      exact ⟨kv, hkv, by simp⟩
  exact h1.trans (List.Perm.mem_iff (by decide))

theorem generate_card_svg_isSome_iff (r s : String) :
    (generate_card_svg r s).isSome = true ↔
      (r ∈ RANKS ∧ s ∈ SUITS.map (fun kv => kv.1)) := by
  rw [← SUITS_get_isSome_iff, ← RANK_DISPLAY_get_isSome_iff]
  cases h1 : SUITS_get s with
  | none => simp [generate_card_svg, h1]
  | some info =>
      obtain ⟨suit_name, color, symbol⟩ := info
      cases h2 : RANK_DISPLAY_get r with
      | none => simp [generate_card_svg, h1, h2]
      | some disp => simp [generate_card_svg, h1, h2]

/-- C7: `generate_card_svg` succeeds exactly when the suit is one of the
four table keys and the rank one of the thirteen ranks — outside either
set the dict lookup fails (a `KeyError`, modelled as `none`) — and this
failure is unreachable from the driver, which iterates only the declared
suit and rank tables. -/
theorem c7_domain :
    (∀ r s : String, (generate_card_svg r s).isSome = true ↔
      (r ∈ RANKS ∧ s ∈ SUITS.map (fun kv => kv.1))) ∧
    (∀ s ∈ SUITS.map (fun kv => kv.1), ∀ r ∈ RANKS,
      (generate_card_svg r s).isSome = true) :=
  ⟨generate_card_svg_isSome_iff,
   fun s hs r hr => (generate_card_svg_isSome_iff r s).mpr ⟨hr, hs⟩⟩

/-- Witness: C7's driver-side part at suit 's', rank 'A', and its
characterization refuting a lookup outside the domain. -/
theorem c7_domain_witness :
    (generate_card_svg "A" "s").isSome = true ∧
    ¬ (generate_card_svg "A" "x").isSome = true :=
  ⟨c7_domain.2 "s" (by decide) "A" (by decide),
   fun h => absurd ((c7_domain.1 "A" "x").mp h).2 (by decide)⟩

/-- State-passing embeddings of the render calls: a Python call could in
principle read or write ambient state (the filesystem), so each render
function is lifted to take and return that state; the bodies of
`generate_card_svg`, `generate_card_back_svg` and `generate_chip_svg`
(source lines 39-151) perform only local string construction — no reads,
no writes — so their lifted forms pass the state through untouched. -/
def generate_card_svg_st (w : FS) (rank suit : String) : Option String × FS :=
  (generate_card_svg rank suit, w)

/-- State-passing form of `generate_card_back_svg`; see
`generate_card_svg_st`. -/
def generate_card_back_svg_st (w : FS) : String × FS :=
  (generate_card_back_svg, w)

/-- State-passing form of `generate_chip_svg`; see
`generate_card_svg_st`. -/
def generate_chip_svg_st (w : FS) (value : Int) (color text_color : String) :
    String × FS :=
  (generate_chip_svg value color text_color, w)

/-- C8: each render operation is deterministic and side-effect free: two
calls with equal arguments return byte-identical documents whatever the
ambient state, and each call leaves the state exactly as it found it. -/
theorem c8_renders_pure :
    ∀ (w w' : FS) (r s : String) (v : Int) (c tc : String),
      (generate_card_svg_st w r s).1 = (generate_card_svg_st w' r s).1 ∧
      (generate_card_svg_st w r s).2 = w ∧
      (generate_card_back_svg_st w).1 = (generate_card_back_svg_st w').1 ∧
      (generate_card_back_svg_st w).2 = w ∧
      (generate_chip_svg_st w v c tc).1 = (generate_chip_svg_st w' v c tc).1 ∧
      (generate_chip_svg_st w v c tc).2 = w :=
  fun _ _ _ _ _ _ _ => ⟨rfl, rfl, rfl, rfl, rfl, rfl⟩

/-- C9: the text-color parameter of `generate_chip_svg` is optional and
defaults to white: a call omitting it returns the same document as one
passing `"#FFFFFF"` explicitly. -/
theorem c9_default_text_color :
    (∀ (v : Int) (c : String),
      generate_chip_svg_default v c = generate_chip_svg v c "#FFFFFF") ∧
    WHITE = "#FFFFFF" :=
  ⟨fun _ _ => rfl, rfl⟩

/-- C10: `generate_chip_svg` enforces no positivity precondition: for
every integer value — zero and negatives included — and any color strings,
it returns a document declaring width and height 80 that embeds the
decimal rendering of the value as the centered text (directly after the
text-color fill attribute). -/
theorem c10_chip_total (v : Int) (c tc : String) :
    ContainsStr (generate_chip_svg v c tc) "<svg width=\"80\" height=\"80\"" ∧
    ContainsStr (generate_chip_svg v c tc)
      ("fill=\"" ++ tc ++ "\">" ++ toString v ++ "</text>") ∧
    ContainsStr (generate_chip_svg v c tc) (toString v) := by
  refine ⟨?_, ?_, ?_⟩
  · exact containsStr_parts _
      ["<svg width=\"", toString chip_size, "\" height=\"", toString chip_size,
        "\""] 1 6 _ (by rfl) (by decide)
  · exact containsStr_parts _ ["fill=\"", tc, "\">", toString v, "</text>"]
      71 76 _ (by rfl) (by simp [strConcat, String.append_assoc])
  · exact containsStr_parts _ [toString v] 74 75 _ (by rfl) (by simp [strConcat])

/-- Witness: C10 at value 0 with concrete colors. -/
theorem c10_chip_total_witness :
    ContainsStr (generate_chip_svg 0 "#FFD700" "#111111")
      "<svg width=\"80\" height=\"80\"" ∧
    ContainsStr (generate_chip_svg 0 "#FFD700" "#111111")
      ("fill=\"" ++ "#111111" ++ "\">" ++ toString (0 : Int) ++ "</text>") ∧
    ContainsStr (generate_chip_svg 0 "#FFD700" "#111111") (toString (0 : Int)) :=
  c10_chip_total 0 "#FFD700" "#111111"
